import Mathlib

/-!
Verification of the database-bootstrap routine (the `handler` Lambda in
`lib/gridwalk-infrastructure-stack.ts`, deployed by `lib/data.ts`): a shallow
embedding of the handler's control flow, the statements it issues, and a model
of the PostgreSQL server state it acts on.

The handler resolves four secret bundles from AWS Secrets Manager, connects to
the server three times with different identities, and issues a fixed sequence
of DDL/DCL statements.  Environment values are pinned by `lib/data.ts` and the
stack instantiation: database `gridwalk`, schema `geo`, and usernames
`postgres` (master), `read`, `gis_admin`, `write` (app).
-/

namespace GridwalkInit

/-- One secret bundle as stored in Secrets Manager (`data.ts`
`secretStringTemplate`: username, password, host, port). -/
structure Secret where
  username : String
  password : String
  host : String
  port : Nat
deriving Repr, DecidableEq

/-- The handler's environment configuration surface (`process.env` reads at
lines 113-118 of the handler source). -/
structure Config where
  dbName : String
  schemaName : String
  masterSecretName : String
  readSecretName : String
  gisadminSecretName : String
  appSecretName : String
deriving Repr, DecidableEq

/-- The structured result value the handler returns (`statusCode`/`body`). -/
structure HandlerResult where
  statusCode : Nat
  body : String
deriving Repr, DecidableEq

/-- The success result literal returned at the end of the `try` block. -/
def ok200 : HandlerResult :=
  { statusCode := 200, body := "Schema and user created successfully" }

/-- The failure result literal returned by the `catch` block. -/
def err500 : HandlerResult :=
  { statusCode := 500, body := "Error creating schema and user" }

/-- The SQL statements the handler issues, one constructor per template
string in the source.  `text` below rebuilds the exact interpolated text. -/
inductive Stmt where
  | createDatabase (db : String)
  | createSchemaIfNotExists (schema : String)
  | setSearchPath (db schema : String)
  | createUser (name pw : String)
  | grantConnect (db role : String)
  | grantUsage (schema role : String)
  | grantCreate (schema role : String)
  | alterDefaultWrite (schema role : String)
  | grantSelectAll (schema role : String)
  | alterDefaultRead (schema role : String)
  | grantRoleMembership (granted grantee : String)
  | grantAllPrivileges (db role : String)
  | alterDefaultForUser (owner schema grantee : String)
  | createExtensionIfNotExists (ext : String)
  | alterSchemaOwner (schema owner : String)
  | createExecFunction
  | execOwnershipTransfer
deriving Repr, DecidableEq

/-- The exact statement text the handler sends: raw template-string
interpolation of the arguments, with no quoting or escaping, transcribed
from the backtick templates at lines 161-249 of the source. -/
def Stmt.text : Stmt → String
  | .createDatabase db => "CREATE DATABASE " ++ db
  | .createSchemaIfNotExists sc => "CREATE SCHEMA IF NOT EXISTS " ++ sc ++ ";"
  | .setSearchPath db sc =>
      "ALTER DATABASE " ++ db ++ " SET search_path TO " ++ sc ++ ", public;"
  | .createUser u pw =>
      "CREATE USER " ++ u ++ " WITH ENCRYPTED PASSWORD '" ++ pw ++ "';"
  | .grantConnect db r => "GRANT CONNECT ON DATABASE " ++ db ++ " TO " ++ r ++ ";"
  | .grantUsage sc r => "GRANT USAGE ON SCHEMA " ++ sc ++ " TO " ++ r ++ ";"
  | .grantCreate sc r => "GRANT CREATE ON SCHEMA " ++ sc ++ " TO " ++ r ++ ";"
  | .alterDefaultWrite sc r =>
      "ALTER DEFAULT PRIVILEGES IN SCHEMA " ++ sc ++
        " GRANT INSERT, UPDATE, DELETE ON TABLES TO " ++ r ++ ";"
  | .grantSelectAll sc r =>
      "GRANT SELECT ON ALL TABLES IN SCHEMA " ++ sc ++ " TO " ++ r ++ ";"
  | .alterDefaultRead sc r =>
      "ALTER DEFAULT PRIVILEGES IN SCHEMA " ++ sc ++
        " GRANT SELECT ON TABLES TO " ++ r ++ ";"
  | .grantRoleMembership g r => "GRANT " ++ g ++ " TO " ++ r ++ ";"
  | .grantAllPrivileges db r =>
      "GRANT ALL PRIVILEGES ON DATABASE " ++ db ++ " TO " ++ r ++ ";"
  | .alterDefaultForUser o sc r =>
      "ALTER DEFAULT PRIVILEGES FOR USER " ++ o ++ " IN SCHEMA " ++ sc ++
        " GRANT SELECT ON TABLES TO " ++ r ++ ";"
  | .createExtensionIfNotExists e => "CREATE EXTENSION IF NOT EXISTS " ++ e ++ ";"
  | .alterSchemaOwner sc o => "ALTER SCHEMA " ++ sc ++ " OWNER TO " ++ o ++ ";"
  | .createExecFunction =>
      "CREATE OR REPLACE FUNCTION exec(text) returns text language plpgsql volatile AS $f$ BEGIN EXECUTE $1; RETURN $1; END; $f$;"
  | .execOwnershipTransfer =>
      "SELECT exec('ALTER TABLE ' || quote_ident(s.nspname) || '.' || quote_ident(s.relname) || ' OWNER TO gis_admin;')\n    FROM (\n      SELECT nspname, relname\n      FROM pg_class c JOIN pg_namespace n ON (c.relnamespace = n.oid)\n      WHERE nspname in ('topology') AND\n      relkind IN ('r','S','v') ORDER BY relkind = 'S')\n    s;"

/-- The two existence-check queries whose row count guards a creation. -/
inductive Check where
  | dbExists (db : String)
  | roleExists (role : String)
deriving Repr, DecidableEq

/-- Exact interpolated text of the existence checks (lines 159, 181, 192, 203). -/
def Check.text : Check → String
  | .dbExists db => "SELECT 1 FROM pg_database WHERE datname='" ++ db ++ "';"
  | .roleExists r => "SELECT 1 FROM pg_catalog.pg_roles WHERE rolname='" ++ r ++ "';"

/-- One row of `pg_class` joined with `pg_namespace`, as selected by the
ownership-transfer query: namespace, relation name, relation kind
(`"r"` table, `"S"` sequence, `"v"` view), and owning role. -/
structure CatalogObj where
  nspname : String
  relname : String
  relkind : String
  owner : String
deriving Repr, DecidableEq

/-- Model of the server state the handler manipulates.  `schemas`,
`searchPath`, `schemaOwners` and `catalog` describe the one target database
the handler provisions (the only database whose interior it touches). -/
structure DBState where
  dbs : List String
  roles : List String
  schemas : List String
  searchPath : List String
  schemaOwners : List (String × String)
  extensions : List String
  grants : List Stmt
  catalog : List CatalogObj
  execFn : Bool
deriving Repr, DecidableEq

/-- Append an element unless it is already present (create-if-not-exists). -/
def addIfAbsent (x : String) (l : List String) : List String :=
  if x ∈ l then l else l ++ [x]

/-- Record a grant unless an identical one is already recorded: re-applying
an existing grant is a no-op in PostgreSQL. -/
def insertGrant (g : Stmt) (l : List Stmt) : List Stmt :=
  if g ∈ l then l else l ++ [g]

/-- Set a key's value in an association list, keeping the entry order, so
that re-setting the same value leaves the list unchanged. -/
def setAssoc : List (String × String) → String → String → List (String × String)
  | [], k, v => [(k, v)]
  | (a, b) :: rest, k, v =>
      if a = k then (a, v) :: rest else (a, b) :: setAssoc rest k v

/-- Catalog objects installed by `CREATE EXTENSION postgis`, owned by the
creating role (modelled from PostGIS: `spatial_ref_sys` table and the
`geometry_columns`/`geography_columns` views in `public`). -/
def postgisObjects (u : String) : List CatalogObj :=
  [⟨"public", "spatial_ref_sys", "r", u⟩,
   ⟨"public", "geometry_columns", "v", u⟩,
   ⟨"public", "geography_columns", "v", u⟩]

/-- Catalog objects installed by `CREATE EXTENSION postgis_topology`, owned by
the creating role (modelled from PostGIS: the `topology` schema with its
`topology` and `layer` tables and the `topology_id_seq` sequence). -/
def topologyObjects (u : String) : List CatalogObj :=
  [⟨"topology", "topology", "r", u⟩,
   ⟨"topology", "layer", "r", u⟩,
   ⟨"topology", "topology_id_seq", "S", u⟩]

/-- The rows selected by the ownership-transfer query: objects in the
`topology` namespace whose kind is table, sequence or view. -/
def isTopologyTarget (o : CatalogObj) : Bool :=
  o.nspname == "topology" && (o.relkind == "r" || o.relkind == "S" || o.relkind == "v")

/-- Model of the PostgreSQL server executing one of the handler's statements
as `user`: `some` next state on success, `none` when the server reports an
error (duplicate creation, missing referenced object, or - for the dynamic
ownership transfer - a missing hard-coded `gis_admin` role while at least one
row matches).  The transfer statement alters ownership once per matching
catalog row, as the server-side `exec` call does. -/
def Stmt.exec (user : String) (st : DBState) : Stmt → Option DBState
  | .createDatabase db =>
      if db ∈ st.dbs then none else some { st with dbs := st.dbs ++ [db] }
  | .createSchemaIfNotExists sc =>
      if sc ∈ st.schemas then some st
      else some { st with schemas := st.schemas ++ [sc],
                          schemaOwners := setAssoc st.schemaOwners sc user }
  | .setSearchPath db sc =>
      if db ∈ st.dbs then some { st with searchPath := [sc, "public"] } else none
  | .createUser u _ =>
      if u ∈ st.roles then none else some { st with roles := st.roles ++ [u] }
  | .grantConnect db r =>
      if db ∈ st.dbs ∧ r ∈ st.roles then
        some { st with grants := insertGrant (.grantConnect db r) st.grants }
      else none
  | .grantUsage sc r =>
      if sc ∈ st.schemas ∧ r ∈ st.roles then
        some { st with grants := insertGrant (.grantUsage sc r) st.grants }
      else none
  | .grantCreate sc r =>
      if sc ∈ st.schemas ∧ r ∈ st.roles then
        some { st with grants := insertGrant (.grantCreate sc r) st.grants }
      else none
  | .alterDefaultWrite sc r =>
      if sc ∈ st.schemas ∧ r ∈ st.roles then
        some { st with grants := insertGrant (.alterDefaultWrite sc r) st.grants }
      else none
  | .grantSelectAll sc r =>
      if sc ∈ st.schemas ∧ r ∈ st.roles then
        some { st with grants := insertGrant (.grantSelectAll sc r) st.grants }
      else none
  | .alterDefaultRead sc r =>
      if sc ∈ st.schemas ∧ r ∈ st.roles then
        some { st with grants := insertGrant (.alterDefaultRead sc r) st.grants }
      else none
  | .grantRoleMembership g r =>
      if g ∈ st.roles ∧ r ∈ st.roles then
        some { st with grants := insertGrant (.grantRoleMembership g r) st.grants }
      else none
  | .grantAllPrivileges db r =>
      if db ∈ st.dbs ∧ r ∈ st.roles then
        some { st with grants := insertGrant (.grantAllPrivileges db r) st.grants }
      else none
  | .alterDefaultForUser o sc r =>
      if o ∈ st.roles ∧ sc ∈ st.schemas ∧ r ∈ st.roles then
        some { st with grants := insertGrant (.alterDefaultForUser o sc r) st.grants }
      else none
  | .createExtensionIfNotExists e =>
      if e ∈ st.extensions then some st
      else if e = "postgis" then
        some { st with extensions := st.extensions ++ [e],
                       catalog := st.catalog ++ postgisObjects user }
      else if e = "postgis_topology" then
        some { st with extensions := st.extensions ++ [e],
                       schemas := addIfAbsent "topology" st.schemas,
                       schemaOwners := setAssoc st.schemaOwners "topology" user,
                       catalog := st.catalog ++ topologyObjects user }
      else some { st with extensions := st.extensions ++ [e] }
  | .alterSchemaOwner sc o =>
      if sc ∈ st.schemas ∧ o ∈ st.roles then
        some { st with schemaOwners := setAssoc st.schemaOwners sc o }
      else none
  | .createExecFunction => some { st with execFn := true }
  | .execOwnershipTransfer =>
      if st.execFn = true then
        if st.catalog.filter isTopologyTarget = [] then some st
        else if "gis_admin" ∈ st.roles then
          some { st with catalog := st.catalog.map fun o =>
            if isTopologyTarget o then { o with owner := "gis_admin" } else o }
        else none
      else none

/-- Row count the server returns for an existence-check query. -/
def Check.rows (st : DBState) : Check → Nat
  | .dbExists db => if db ∈ st.dbs then 1 else 0
  | .roleExists r => if r ∈ st.roles then 1 else 0

/-- One step of the handler's interaction with the outside world, in program
order.  `awaited` on `endConn` records whether the source `await`s the
returned promise of `Client.end()` (it does for the first connection only). -/
inductive Event where
  | getSecret (secretId : String) (ok : Bool)
  | connect (user database : String) (ok : Bool)
  | endConn (user database : String) (awaited : Bool)
  | check (c : Check) (ok : Bool)
  | query (q : Stmt) (ok : Bool)
deriving Repr, DecidableEq

/-- Whether an event is the one at which the invocation failed. -/
def Event.isFailure : Event → Bool
  | .getSecret _ ok => !ok
  | .connect _ _ ok => !ok
  | .check _ ok => !ok
  | .query _ ok => !ok
  | .endConn _ _ _ => false

/-- Whether an event opens a database connection. -/
def Event.isConnect : Event → Bool
  | .connect _ _ _ => true
  | _ => false

/-- Exogenous failure injection: whether the n-th connection attempt and the
n-th issued query succeed, given that the model state itself raises no error. -/
structure Oracle where
  connectOk : Nat → Bool
  stmtOk : Nat → Bool

/-- The oracle injecting no failure. -/
def Oracle.allOk : Oracle := ⟨fun _ => true, fun _ => true⟩

/-- Interpreter context: server state, current connection's user, the event
trace so far, and the connect/query counters the oracle is indexed by. -/
structure Ctx where
  st : DBState
  curUser : String
  tr : List Event
  nConn : Nat
  nStmt : Nat
deriving Repr

/-- The commands the handler's body performs against the outside world, in
source order. `checkThen c q` is the read-then-create pattern: run the check
query, and issue `q` only when it returned zero rows. -/
inductive Cmd where
  | connect (user database : String)
  | endConn (user database : String) (awaited : Bool)
  | run (q : Stmt)
  | checkThen (c : Check) (q : Stmt)
deriving Repr, DecidableEq

/-- Issue one statement: an oracle-injected failure or a server error aborts
with the context at the point of the error (the failed statement has no
effect on the state). -/
def runStmt (o : Oracle) (q : Stmt) (ctx : Ctx) : Except Ctx Ctx :=
  match (if o.stmtOk ctx.nStmt then Stmt.exec ctx.curUser ctx.st q else none) with
  | some st' => .ok { ctx with st := st',
                               tr := ctx.tr ++ [.query q true],
                               nStmt := ctx.nStmt + 1 }
  | none => .error { ctx with tr := ctx.tr ++ [.query q false],
                              nStmt := ctx.nStmt + 1 }

/-- Issue one existence-check query, returning its row count. -/
def runCheck (o : Oracle) (c : Check) (ctx : Ctx) : Except Ctx (Nat × Ctx) :=
  if o.stmtOk ctx.nStmt then
    .ok (c.rows ctx.st, { ctx with tr := ctx.tr ++ [.check c true],
                                   nStmt := ctx.nStmt + 1 })
  else .error { ctx with tr := ctx.tr ++ [.check c false],
                         nStmt := ctx.nStmt + 1 }

/-- Perform one command. Connecting requires the role and the database to
exist on the server (and the oracle's consent); `Client.end()` never fails. -/
def stepCmd (o : Oracle) (c : Cmd) (ctx : Ctx) : Except Ctx Ctx :=
  match c with
  | .connect u d =>
      if o.connectOk ctx.nConn = true ∧ u ∈ ctx.st.roles ∧ d ∈ ctx.st.dbs then
        .ok { ctx with curUser := u,
                       tr := ctx.tr ++ [.connect u d true],
                       nConn := ctx.nConn + 1 }
      else .error { ctx with tr := ctx.tr ++ [.connect u d false],
                             nConn := ctx.nConn + 1 }
  | .endConn u d aw => .ok { ctx with tr := ctx.tr ++ [.endConn u d aw] }
  | .run q => runStmt o q ctx
  | .checkThen ck q =>
      match runCheck o ck ctx with
      | .error ctx' => .error ctx'
      | .ok (rows, ctx') => if rows = 0 then runStmt o q ctx' else .ok ctx'

/-- Run the commands in order; the first failure aborts the rest, exactly as
a thrown exception leaves the `try` block. -/
def runCmds (o : Oracle) : List Cmd → Ctx → Except Ctx Ctx
  | [], ctx => .ok ctx
  | c :: cs, ctx =>
      match stepCmd o c ctx with
      | .ok ctx' => runCmds o cs ctx'
      | .error ctx' => .error ctx'

/-- The handler's fixed command sequence (source lines 146-251), transcribed
in order: connect as master to `postgres`; check/create the database; close
(awaited); connect as master to the target database; schema and search path;
app (write) user and its grants; read user and its grants; gisadmin user and
its grants; master membership and default read grants; close (not awaited);
connect as gisadmin; extensions; topology ownership fixes; close (not
awaited). -/
def provisionProgram (cfg : Config) (ms rs gs sa : Secret) : List Cmd :=
  [ .connect ms.username "postgres",
    .checkThen (.dbExists cfg.dbName) (.createDatabase cfg.dbName),
    .endConn ms.username "postgres" true,
    .connect ms.username cfg.dbName,
    .run (.createSchemaIfNotExists cfg.schemaName),
    .run (.setSearchPath cfg.dbName cfg.schemaName),
    .checkThen (.roleExists sa.username) (.createUser sa.username sa.password),
    .run (.grantConnect cfg.dbName sa.username),
    .run (.grantUsage cfg.schemaName sa.username),
    .run (.grantCreate cfg.schemaName sa.username),
    .run (.alterDefaultWrite cfg.schemaName sa.username),
    .checkThen (.roleExists rs.username) (.createUser rs.username rs.password),
    .run (.grantConnect cfg.dbName rs.username),
    .run (.grantUsage cfg.schemaName rs.username),
    .run (.grantSelectAll cfg.schemaName rs.username),
    .run (.alterDefaultRead cfg.schemaName rs.username),
    .checkThen (.roleExists gs.username) (.createUser gs.username gs.password),
    .run (.grantConnect cfg.dbName gs.username),
    .run (.grantUsage cfg.schemaName gs.username),
    .run (.grantUsage "public" gs.username),
    .run (.grantSelectAll cfg.schemaName gs.username),
    .run (.grantRoleMembership "rds_superuser" gs.username),
    .run (.grantAllPrivileges cfg.dbName gs.username),
    .run (.grantRoleMembership sa.username ms.username),
    .run (.alterDefaultForUser sa.username cfg.schemaName rs.username),
    .endConn ms.username cfg.dbName false,
    .connect gs.username cfg.dbName,
    .run (.createExtensionIfNotExists "postgis"),
    .run (.createExtensionIfNotExists "postgis_raster"),
    .run (.createExtensionIfNotExists "fuzzystrmatch"),
    .run (.createExtensionIfNotExists "postgis_topology"),
    .run (.createExtensionIfNotExists "hstore"),
    .run (.alterSchemaOwner "topology" gs.username),
    .run .createExecFunction,
    .run .execOwnershipTransfer,
    .endConn gs.username cfg.dbName false ]

/-- Everything observable about one invocation: the returned result, the
server state left behind, and the full event trace. -/
structure Outcome where
  result : HandlerResult
  st : DBState
  tr : List Event
deriving Repr, DecidableEq

/-- The interpreter context right after the four secret lookups succeeded:
nothing executed yet, the four lookup events on the trace. -/
def ctx0 (cfg : Config) (s0 : DBState) : Ctx :=
  ⟨s0, "",
   [.getSecret cfg.masterSecretName true,
    .getSecret cfg.readSecretName true,
    .getSecret cfg.gisadminSecretName true,
    .getSecret cfg.appSecretName true], 0, 0⟩

/-- The part of the handler inside the `try` block after the secret lookups:
run the provisioning sequence; success returns `ok200`, any abort reaches
the catch block and returns `err500`. -/
def provisionOutcome (cfg : Config) (ms rs gs sa : Secret) (o : Oracle)
    (s0 : DBState) : Outcome :=
  match runCmds o (provisionProgram cfg ms rs gs sa) (ctx0 cfg s0) with
  | .ok ctx => ⟨ok200, ctx.st, ctx.tr⟩
  | .error ctx => ⟨err500, ctx.st, ctx.tr⟩

/-- The handler: resolve the four secret bundles in source order (master,
read, gisadmin, app; lines 127-144), then run the provisioning sequence.
Any error - an unresolvable secret, a failed connection, or a failed
statement - reaches the single top-level catch, which returns `err500`;
success returns `ok200`.  The secret store and the oracle stand for the
external collaborators (Secrets Manager and the network/server). -/
def handler (cfg : Config) (store : String → Option Secret) (o : Oracle)
    (s0 : DBState) : Outcome :=
  match store cfg.masterSecretName with
  | none => ⟨err500, s0, [.getSecret cfg.masterSecretName false]⟩
  | some ms =>
    match store cfg.readSecretName with
    | none => ⟨err500, s0,
        [.getSecret cfg.masterSecretName true,
         .getSecret cfg.readSecretName false]⟩
    | some rs =>
      match store cfg.gisadminSecretName with
      | none => ⟨err500, s0,
          [.getSecret cfg.masterSecretName true,
           .getSecret cfg.readSecretName true,
           .getSecret cfg.gisadminSecretName false]⟩
      | some gs =>
        match store cfg.appSecretName with
        | none => ⟨err500, s0,
            [.getSecret cfg.masterSecretName true,
             .getSecret cfg.readSecretName true,
             .getSecret cfg.gisadminSecretName true,
             .getSecret cfg.appSecretName false]⟩
        | some sa => provisionOutcome cfg ms rs gs sa o s0

/-- A freshly created, empty RDS PostgreSQL server: only the administrative
`postgres` database, the master role and RDS's `rds_superuser` role; the
target database's schema list starts as the `public` schema `CREATE DATABASE`
would give it. -/
def freshState (masterUser : String) : DBState :=
  { dbs := ["postgres"], roles := [masterUser, "rds_superuser"],
    schemas := ["public"], searchPath := ["public"],
    schemaOwners := [("public", masterUser)], extensions := [],
    grants := [], catalog := [], execFn := false }

/-! The deployed configuration.  `lib/data.ts` pins the usernames in the
generated secret bundles (`postgres`, `read`, `gis_admin`, `write`) and the
stack instantiation pins database `gridwalk` and schema `geo`; the secret
identifiers themselves are deploy-time names, fixed here to placeholders. -/

/-- The environment configuration `data.ts` gives the Lambda. -/
def gwConfig : Config :=
  { dbName := "gridwalk", schemaName := "geo",
    masterSecretName := "gridwalk-master", readSecretName := "gridwalk-read",
    gisadminSecretName := "gridwalk-gisadmin", appSecretName := "gridwalk-app" }

/-- The master bundle RDS generates for user `postgres`. -/
def masterSecret (pw : String) : Secret := ⟨"postgres", pw, "db.gridwalk.internal", 5432⟩

/-- The read-only bundle (`data.ts` username `read`). -/
def readSecret (pw : String) : Secret := ⟨"read", pw, "db.gridwalk.internal", 5432⟩

/-- The GIS admin bundle (`data.ts` username `gis_admin`). -/
def gisadminSecret (pw : String) : Secret := ⟨"gis_admin", pw, "db.gridwalk.internal", 5432⟩

/-- The app (write) bundle (`data.ts` username `write`). -/
def appSecret (pw : String) : Secret := ⟨"write", pw, "db.gridwalk.internal", 5432⟩

/-- The deployed secret store, with the four bundles' generated passwords as
parameters. -/
def gwStore (pm pr pg pa : String) : String → Option Secret := fun n =>
  if n = "gridwalk-master" then some (masterSecret pm)
  else if n = "gridwalk-read" then some (readSecret pr)
  else if n = "gridwalk-gisadmin" then some (gisadminSecret pg)
  else if n = "gridwalk-app" then some (appSecret pa)
  else none

/-- The freshly created deployed server. -/
def gwFresh : DBState := freshState "postgres"

/-- First invocation against the fresh server, no injected failures. -/
def run1 (pm pr pg pa : String) : Outcome :=
  handler gwConfig (gwStore pm pr pg pa) Oracle.allOk gwFresh

/-- Second invocation, from the state the first one left behind. -/
def run2 (pm pr pg pa : String) : Outcome :=
  handler gwConfig (gwStore pm pr pg pa) Oracle.allOk (run1 pm pr pg pa).st



/-- The server state one successful invocation leaves behind on the deployed
configuration. -/
def gwFinalState : DBState :=
  { dbs := ["postgres", "gridwalk"],
    roles := ["postgres", "rds_superuser", "write", "read", "gis_admin"],
    schemas := ["public", "geo", "topology"],
    searchPath := ["geo", "public"],
    schemaOwners := [("public", "postgres"), ("geo", "postgres"), ("topology", "gis_admin")],
    extensions := ["postgis", "postgis_raster", "fuzzystrmatch", "postgis_topology", "hstore"],
    grants := [.grantConnect "gridwalk" "write",
               .grantUsage "geo" "write",
               .grantCreate "geo" "write",
               .alterDefaultWrite "geo" "write",
               .grantConnect "gridwalk" "read",
               .grantUsage "geo" "read",
               .grantSelectAll "geo" "read",
               .alterDefaultRead "geo" "read",
               .grantConnect "gridwalk" "gis_admin",
               .grantUsage "geo" "gis_admin",
               .grantUsage "public" "gis_admin",
               .grantSelectAll "geo" "gis_admin",
               .grantRoleMembership "rds_superuser" "gis_admin",
               .grantAllPrivileges "gridwalk" "gis_admin",
               .grantRoleMembership "write" "postgres",
               .alterDefaultForUser "write" "geo" "read"],
    catalog := [⟨"public", "spatial_ref_sys", "r", "gis_admin"⟩,
                ⟨"public", "geometry_columns", "v", "gis_admin"⟩,
                ⟨"public", "geography_columns", "v", "gis_admin"⟩,
                ⟨"topology", "topology", "r", "gis_admin"⟩,
                ⟨"topology", "layer", "r", "gis_admin"⟩,
                ⟨"topology", "topology_id_seq", "S", "gis_admin"⟩],
    execFn := true }

/-- The event trace of the first invocation against the fresh server
(`pa`, `pr`, `pg` are the app, read and gisadmin passwords): lookups first,
then the three connections in turn, every step in source order. -/
def gwTrace1 (pa pr pg : String) : List Event :=
  [ .getSecret "gridwalk-master" true,
    .getSecret "gridwalk-read" true,
    .getSecret "gridwalk-gisadmin" true,
    .getSecret "gridwalk-app" true,
    .connect "postgres" "postgres" true,
    .check (.dbExists "gridwalk") true,
    .query (.createDatabase "gridwalk") true,
    .endConn "postgres" "postgres" true,
    .connect "postgres" "gridwalk" true,
    .query (.createSchemaIfNotExists "geo") true,
    .query (.setSearchPath "gridwalk" "geo") true,
    .check (.roleExists "write") true,
    .query (.createUser "write" pa) true,
    .query (.grantConnect "gridwalk" "write") true,
    .query (.grantUsage "geo" "write") true,
    .query (.grantCreate "geo" "write") true,
    .query (.alterDefaultWrite "geo" "write") true,
    .check (.roleExists "read") true,
    .query (.createUser "read" pr) true,
    .query (.grantConnect "gridwalk" "read") true,
    .query (.grantUsage "geo" "read") true,
    .query (.grantSelectAll "geo" "read") true,
    .query (.alterDefaultRead "geo" "read") true,
    .check (.roleExists "gis_admin") true,
    .query (.createUser "gis_admin" pg) true,
    .query (.grantConnect "gridwalk" "gis_admin") true,
    .query (.grantUsage "geo" "gis_admin") true,
    .query (.grantUsage "public" "gis_admin") true,
    .query (.grantSelectAll "geo" "gis_admin") true,
    .query (.grantRoleMembership "rds_superuser" "gis_admin") true,
    .query (.grantAllPrivileges "gridwalk" "gis_admin") true,
    .query (.grantRoleMembership "write" "postgres") true,
    .query (.alterDefaultForUser "write" "geo" "read") true,
    .endConn "postgres" "gridwalk" false,
    .connect "gis_admin" "gridwalk" true,
    .query (.createExtensionIfNotExists "postgis") true,
    .query (.createExtensionIfNotExists "postgis_raster") true,
    .query (.createExtensionIfNotExists "fuzzystrmatch") true,
    .query (.createExtensionIfNotExists "postgis_topology") true,
    .query (.createExtensionIfNotExists "hstore") true,
    .query (.alterSchemaOwner "topology" "gis_admin") true,
    .query .createExecFunction true,
    .query .execOwnershipTransfer true,
    .endConn "gis_admin" "gridwalk" false ]

/-- The event trace of a repeat invocation: all existence checks find their
object, so no CREATE DATABASE and no CREATE USER is issued, while every
grant, extension and ownership statement runs again. -/
def gwTrace2 : List Event :=
  [ .getSecret "gridwalk-master" true,
    .getSecret "gridwalk-read" true,
    .getSecret "gridwalk-gisadmin" true,
    .getSecret "gridwalk-app" true,
    .connect "postgres" "postgres" true,
    .check (.dbExists "gridwalk") true,
    .endConn "postgres" "postgres" true,
    .connect "postgres" "gridwalk" true,
    .query (.createSchemaIfNotExists "geo") true,
    .query (.setSearchPath "gridwalk" "geo") true,
    .check (.roleExists "write") true,
    .query (.grantConnect "gridwalk" "write") true,
    .query (.grantUsage "geo" "write") true,
    .query (.grantCreate "geo" "write") true,
    .query (.alterDefaultWrite "geo" "write") true,
    .check (.roleExists "read") true,
    .query (.grantConnect "gridwalk" "read") true,
    .query (.grantUsage "geo" "read") true,
    .query (.grantSelectAll "geo" "read") true,
    .query (.alterDefaultRead "geo" "read") true,
    .check (.roleExists "gis_admin") true,
    .query (.grantConnect "gridwalk" "gis_admin") true,
    .query (.grantUsage "geo" "gis_admin") true,
    .query (.grantUsage "public" "gis_admin") true,
    .query (.grantSelectAll "geo" "gis_admin") true,
    .query (.grantRoleMembership "rds_superuser" "gis_admin") true,
    .query (.grantAllPrivileges "gridwalk" "gis_admin") true,
    .query (.grantRoleMembership "write" "postgres") true,
    .query (.alterDefaultForUser "write" "geo" "read") true,
    .endConn "postgres" "gridwalk" false,
    .connect "gis_admin" "gridwalk" true,
    .query (.createExtensionIfNotExists "postgis") true,
    .query (.createExtensionIfNotExists "postgis_raster") true,
    .query (.createExtensionIfNotExists "fuzzystrmatch") true,
    .query (.createExtensionIfNotExists "postgis_topology") true,
    .query (.createExtensionIfNotExists "hstore") true,
    .query (.alterSchemaOwner "topology" "gis_admin") true,
    .query .createExecFunction true,
    .query .execOwnershipTransfer true,
    .endConn "gis_admin" "gridwalk" false ]

/-- The first invocation with the deployed store and fixed generated
passwords (the passwords influence no control flow and no server-state
field; they appear only inside the CREATE USER statement texts). -/
def run1c : Outcome := run1 "pw-master" "pw-read" "pw-gisadmin" "pw-app"

/-- The repeat invocation from the state `run1c` left behind. -/
def run2c : Outcome := run2 "pw-master" "pw-read" "pw-gisadmin" "pw-app"

/-- The context an interpreter outcome carries, whether it succeeded or
aborted. -/
def resCtx : Except Ctx Ctx → Ctx
  | .ok c => c
  | .error c => c

/-- The frame relation of the lifecycle claim: every database, role, schema
and extension present before is still present after. -/
def entitiesSub (s1 s2 : DBState) : Prop :=
  s1.dbs ⊆ s2.dbs ∧ s1.roles ⊆ s2.roles ∧ s1.schemas ⊆ s2.schemas ∧
    s1.extensions ⊆ s2.extensions

/-- Whether an event is a CREATE USER statement. -/
def Event.isCreateUser : Event → Bool
  | .query (.createUser _ _) _ => true
  | _ => false

/-- Whether an event is one of the grant / default-privilege statements
(the statements re-applied on every invocation). -/
def Event.isGrantStmt : Event → Bool
  | .query (.grantConnect _ _) _ => true
  | .query (.grantUsage _ _) _ => true
  | .query (.grantCreate _ _) _ => true
  | .query (.grantSelectAll _ _) _ => true
  | .query (.alterDefaultWrite _ _) _ => true
  | .query (.alterDefaultRead _ _) _ => true
  | .query (.alterDefaultForUser _ _ _) _ => true
  | .query (.grantRoleMembership _ _) _ => true
  | .query (.grantAllPrivileges _ _) _ => true
  | _ => false

/-- Whether an event is a statement sent over a connection (an existence
check or a DDL/DCL statement). -/
def Event.isQuery : Event → Bool
  | .check _ _ => true
  | .query _ _ => true
  | _ => false

/-- True unless the event is an unawaited `Client.end()`. -/
def Event.closeAwaited : Event → Bool
  | .endConn _ _ aw => aw
  | _ => true

/-- The connection open/close events of a trace, in order. -/
def connEvents (tr : List Event) : List Event :=
  tr.filter fun e => match e with
    | .connect _ _ _ => true
    | .endConn _ _ _ => true
    | _ => false

/-- Replay the state changes a trace records: a successful connect switches
the current user, a successful query applies its server semantics, and
every other event leaves the state alone. -/
def replay : DBState → String → List Event → DBState
  | s, _, [] => s
  | s, _, .connect u _ true :: es => replay s u es
  | s, cu, .query q true :: es =>
      replay (match Stmt.exec cu s q with | some s' => s' | none => s) cu es
  | s, cu, _ :: es => replay s cu es

/-- Injected failure of exactly the k-th issued query. -/
def failStmtAt (k : Nat) : Oracle := ⟨fun _ => true, fun n => n != k⟩

/-- Injected failure of exactly the k-th connection attempt. -/
def failConnAt (k : Nat) : Oracle := ⟨fun n => n != k, fun _ => true⟩

/-- The store with one secret identifier made unresolvable. -/
def dropName (bad : String) (store : String → Option Secret) :
    String → Option Secret :=
  fun n => if n = bad then none else store n

/-- The deployed store with the fixed placeholder passwords. -/
def gwStoreC : String → Option Secret :=
  gwStore "pw-master" "pw-read" "pw-gisadmin" "pw-app"

/-- One injected failure aborts cleanly: the failure result is returned; the
trace agrees with the successful run's trace up to the failed event, which
is its last entry (nothing is issued after the failure); and the final
state is exactly the replay of the trace's successful events - no
compensating or rollback statement. -/
def abortsCleanly (store : String → Option Secret) (o : Oracle) : Bool :=
  let bad := handler gwConfig store o gwFresh
  bad.result == err500 &&
  bad.tr.dropLast == run1c.tr.take (bad.tr.length - 1) &&
  (bad.tr.getLast?.map Event.isFailure).getD false &&
  bad.tr.dropLast.all (fun e => !e.isFailure) &&
  bad.st == replay gwFresh "" bad.tr

/-- Double every single quote, character by character (SQL literal
escaping). -/
def escQuotes : List Char → List Char
  | [] => []
  | c :: cs => if c = '\'' then c :: c :: escQuotes cs else c :: escQuotes cs

/-- Correctly quoted SQL string literal (internal single quotes doubled):
the quoting the handler does NOT perform.  Modelled from the spec: the
design notes call for quoting helpers instead of string concatenation; this
is the standard SQL literal the CREATE USER statement would need to carry a
password verbatim. -/
def sqlStringLiteral (s : String) : String :=
  "'" ++ String.mk (escQuotes s.data) ++ "'"

/-- Closed-form evaluation of the first invocation: success, the fully
provisioned state, and the full trace in source order. -/
theorem run1c_eq : run1c = ⟨ok200, gwFinalState, gwTrace1 "pw-app" "pw-read" "pw-gisadmin"⟩ := by
  decide

/-- Closed-form evaluation of the repeat invocation: success again, the same
final state, and the trace without any creation statement. -/
theorem run2c_eq : run2c = ⟨ok200, gwFinalState, gwTrace2⟩ := by
  decide

theorem runCheck_ok_eq (o : Oracle) (c : Check) (ctx : Ctx) (rows : Nat) (ctx' : Ctx)
    (h : runCheck o c ctx = .ok (rows, ctx')) :
    rows = c.rows ctx.st ∧
      ctx' = { ctx with tr := ctx.tr ++ [.check c true], nStmt := ctx.nStmt + 1 } := by
  unfold runCheck at h
  split at h
  · simp only [Except.ok.injEq, Prod.mk.injEq] at h
    exact ⟨h.1.symm, h.2.symm⟩
  · exact absurd h (by simp)

theorem runCheck_error_eq (o : Oracle) (c : Check) (ctx : Ctx) (ctx' : Ctx)
    (h : runCheck o c ctx = .error ctx') :
    ctx' = { ctx with tr := ctx.tr ++ [.check c false], nStmt := ctx.nStmt + 1 } := by
  unfold runCheck at h
  split at h
  · exact absurd h (by simp)
  · simp only [Except.error.injEq] at h
    exact h.symm

theorem runStmt_tr_append (o : Oracle) (q : Stmt) (ctx : Ctx) :
    ∃ t, (resCtx (runStmt o q ctx)).tr = ctx.tr ++ t := by
  unfold runStmt
  split
  · exact ⟨_, rfl⟩
  · exact ⟨_, rfl⟩

theorem stepCmd_tr_append (o : Oracle) (c : Cmd) (ctx : Ctx) :
    ∃ t, (resCtx (stepCmd o c ctx)).tr = ctx.tr ++ t := by
  cases c with
  | connect u d =>
      simp only [stepCmd]
      split
      · exact ⟨_, rfl⟩
      · exact ⟨_, rfl⟩
  | endConn u d aw => exact ⟨_, rfl⟩
  | run q =>
      simp only [stepCmd]
      exact runStmt_tr_append o q ctx
  | checkThen ck q =>
      simp only [stepCmd]
      cases hc : runCheck o ck ctx with
      | error ctx' =>
          have he := runCheck_error_eq o ck ctx ctx' hc
          subst he
          exact ⟨_, rfl⟩
      | ok pair =>
          obtain ⟨rows, ctx'⟩ := pair
          have he := (runCheck_ok_eq o ck ctx rows ctx' hc).2
          subst he
          by_cases hr : rows = 0
          · subst hr
            obtain ⟨t2, ht2⟩ := runStmt_tr_append o q
              { ctx with tr := ctx.tr ++ [.check ck true], nStmt := ctx.nStmt + 1 }
            exact ⟨[Event.check ck true] ++ t2,
              by rw [← List.append_assoc]; exact ht2⟩
          · exact ⟨[Event.check ck true], by simp [hr, resCtx]⟩

theorem runCmds_tr_append (o : Oracle) (cs : List Cmd) (ctx : Ctx) :
    ∃ t, (resCtx (runCmds o cs ctx)).tr = ctx.tr ++ t := by
  induction cs generalizing ctx with
  | nil => exact ⟨[], by simp [runCmds, resCtx]⟩
  | cons c cs ih =>
      unfold runCmds
      have hs := stepCmd_tr_append o c ctx
      cases h : stepCmd o c ctx with
      | ok ctx' =>
          rw [h] at hs
          simp only [resCtx] at hs
          obtain ⟨t1, h1⟩ := hs
          obtain ⟨t2, h2⟩ := ih ctx'
          exact ⟨t1 ++ t2, by rw [h2, h1, List.append_assoc]⟩
      | error ctx' =>
          rw [h] at hs
          simp only [resCtx] at hs
          obtain ⟨t1, h1⟩ := hs
          exact ⟨t1, h1⟩

theorem entitiesSub_refl (s : DBState) : entitiesSub s s := by
  unfold entitiesSub
  exact ⟨List.Subset.refl _, List.Subset.refl _, List.Subset.refl _, List.Subset.refl _⟩

theorem entitiesSub_trans {a b c : DBState} (h1 : entitiesSub a b)
    (h2 : entitiesSub b c) : entitiesSub a c := by
  unfold entitiesSub at h1 h2 ⊢
  obtain ⟨x1, x2, x3, x4⟩ := h1
  obtain ⟨y1, y2, y3, y4⟩ := h2
  exact ⟨fun a ha => y1 (x1 ha), fun a ha => y2 (x2 ha),
         fun a ha => y3 (x3 ha), fun a ha => y4 (x4 ha)⟩

theorem subset_addIfAbsent (x : String) (l : List String) : l ⊆ addIfAbsent x l := by
  unfold addIfAbsent
  split
  · exact List.Subset.refl _
  · exact List.subset_append_left _ _

/-- No statement the server executes ever removes a database, role, schema
or extension. -/
theorem exec_entitiesSub (u : String) (st st' : DBState) (q : Stmt)
    (h : Stmt.exec u st q = some st') : entitiesSub st st' := by
  unfold entitiesSub
  cases q <;> simp only [Stmt.exec] at h <;>
    (repeat' split at h) <;>
    first
      | exact Option.noConfusion h
      | (injection h with h; subst h;
         refine ⟨?_, ?_, ?_, ?_⟩ <;>
           first
             | exact List.Subset.refl _
             | exact List.subset_append_left _ _
             | exact subset_addIfAbsent _ _)

theorem runStmt_st_sub (o : Oracle) (q : Stmt) (ctx : Ctx) :
    entitiesSub ctx.st (resCtx (runStmt o q ctx)).st := by
  unfold runStmt
  cases ho : o.stmtOk ctx.nStmt with
  | false => simp only [ho, Bool.false_eq_true, if_false]; exact entitiesSub_refl _
  | true =>
      simp only [ho, if_true]
      cases hx : Stmt.exec ctx.curUser ctx.st q with
      | none => exact entitiesSub_refl _
      | some st' => exact exec_entitiesSub _ _ _ _ hx

theorem stepCmd_st_sub (o : Oracle) (c : Cmd) (ctx : Ctx) :
    entitiesSub ctx.st (resCtx (stepCmd o c ctx)).st := by
  cases c with
  | connect u d =>
      simp only [stepCmd]
      split
      · exact entitiesSub_refl _
      · exact entitiesSub_refl _
  | endConn u d aw => exact entitiesSub_refl _
  | run q =>
      simp only [stepCmd]
      exact runStmt_st_sub o q ctx
  | checkThen ck q =>
      simp only [stepCmd]
      cases hc : runCheck o ck ctx with
      | error ctx' =>
          have he := runCheck_error_eq o ck ctx ctx' hc
          subst he
          exact entitiesSub_refl _
      | ok pair =>
          obtain ⟨rows, ctx'⟩ := pair
          have he := (runCheck_ok_eq o ck ctx rows ctx' hc).2
          subst he
          by_cases hr : rows = 0
          · subst hr
            exact runStmt_st_sub o q
              { ctx with tr := ctx.tr ++ [.check ck true], nStmt := ctx.nStmt + 1 }
          · simp only [hr, if_false, resCtx]
            exact entitiesSub_refl _

theorem runCmds_st_sub (o : Oracle) (cs : List Cmd) (ctx : Ctx) :
    entitiesSub ctx.st (resCtx (runCmds o cs ctx)).st := by
  induction cs generalizing ctx with
  | nil => exact entitiesSub_refl _
  | cons c cs ih =>
      unfold runCmds
      have hs := stepCmd_st_sub o c ctx
      cases h : stepCmd o c ctx with
      | ok ctx' =>
          rw [h] at hs
          exact entitiesSub_trans hs (ih ctx')
      | error ctx' =>
          rw [h] at hs
          exact hs

theorem provisionOutcome_st_sub (cfg : Config) (ms rs gs sa : Secret)
    (o : Oracle) (s0 : DBState) :
    entitiesSub s0 (provisionOutcome cfg ms rs gs sa o s0).st := by
  unfold provisionOutcome
  have hs := runCmds_st_sub o (provisionProgram cfg ms rs gs sa) (ctx0 cfg s0)
  cases h : runCmds o (provisionProgram cfg ms rs gs sa) (ctx0 cfg s0) with
  | ok ctx => rw [h] at hs; exact hs
  | error ctx => rw [h] at hs; exact hs

/-- Over a whole invocation - any configuration, any store, any injected
failures, any starting state - the handler never deletes a database, role,
schema or extension. -/
theorem handler_st_sub (cfg : Config) (store : String → Option Secret)
    (o : Oracle) (s0 : DBState) : entitiesSub s0 (handler cfg store o s0).st := by
  unfold handler
  cases store cfg.masterSecretName with
  | none => exact entitiesSub_refl _
  | some ms =>
    cases store cfg.readSecretName with
    | none => exact entitiesSub_refl _
    | some rs =>
      cases store cfg.gisadminSecretName with
      | none => exact entitiesSub_refl _
      | some gs =>
        cases store cfg.appSecretName with
        | none => exact entitiesSub_refl _
        | some sa => exact provisionOutcome_st_sub cfg ms rs gs sa o s0

theorem handler_master_none (cfg : Config) (store : String → Option Secret)
    (o : Oracle) (s0 : DBState) (h : store cfg.masterSecretName = none) :
    handler cfg store o s0 =
      ⟨err500, s0, [.getSecret cfg.masterSecretName false]⟩ := by
  unfold handler
  rw [h]

theorem handler_read_none (cfg : Config) (store : String → Option Secret)
    (o : Oracle) (s0 : DBState) (ms : Secret)
    (hm : store cfg.masterSecretName = some ms)
    (h : store cfg.readSecretName = none) :
    handler cfg store o s0 =
      ⟨err500, s0, [.getSecret cfg.masterSecretName true,
                    .getSecret cfg.readSecretName false]⟩ := by
  unfold handler
  rw [hm, h]

theorem handler_gisadmin_none (cfg : Config) (store : String → Option Secret)
    (o : Oracle) (s0 : DBState) (ms rs : Secret)
    (hm : store cfg.masterSecretName = some ms)
    (hr : store cfg.readSecretName = some rs)
    (h : store cfg.gisadminSecretName = none) :
    handler cfg store o s0 =
      ⟨err500, s0, [.getSecret cfg.masterSecretName true,
                    .getSecret cfg.readSecretName true,
                    .getSecret cfg.gisadminSecretName false]⟩ := by
  unfold handler
  rw [hm, hr, h]

theorem handler_app_none (cfg : Config) (store : String → Option Secret)
    (o : Oracle) (s0 : DBState) (ms rs gs : Secret)
    (hm : store cfg.masterSecretName = some ms)
    (hr : store cfg.readSecretName = some rs)
    (hg : store cfg.gisadminSecretName = some gs)
    (h : store cfg.appSecretName = none) :
    handler cfg store o s0 =
      ⟨err500, s0, [.getSecret cfg.masterSecretName true,
                    .getSecret cfg.readSecretName true,
                    .getSecret cfg.gisadminSecretName true,
                    .getSecret cfg.appSecretName false]⟩ := by
  unfold handler
  rw [hm, hr, hg, h]

theorem handler_all_some (cfg : Config) (store : String → Option Secret)
    (o : Oracle) (s0 : DBState) (ms rs gs sa : Secret)
    (hm : store cfg.masterSecretName = some ms)
    (hr : store cfg.readSecretName = some rs)
    (hg : store cfg.gisadminSecretName = some gs)
    (ha : store cfg.appSecretName = some sa) :
    handler cfg store o s0 = provisionOutcome cfg ms rs gs sa o s0 := by
  unfold handler
  rw [hm, hr, hg, ha]

theorem provisionOutcome_result (cfg : Config) (ms rs gs sa : Secret)
    (o : Oracle) (s0 : DBState) :
    (provisionOutcome cfg ms rs gs sa o s0).result = ok200 ∨
      (provisionOutcome cfg ms rs gs sa o s0).result = err500 := by
  unfold provisionOutcome
  cases runCmds o (provisionProgram cfg ms rs gs sa) (ctx0 cfg s0) with
  | ok ctx => exact Or.inl rfl
  | error ctx => exact Or.inr rfl

theorem provisionOutcome_tr (cfg : Config) (ms rs gs sa : Secret)
    (o : Oracle) (s0 : DBState) :
    ∃ t, (provisionOutcome cfg ms rs gs sa o s0).tr = (ctx0 cfg s0).tr ++ t := by
  unfold provisionOutcome
  have hs := runCmds_tr_append o (provisionProgram cfg ms rs gs sa) (ctx0 cfg s0)
  cases h : runCmds o (provisionProgram cfg ms rs gs sa) (ctx0 cfg s0) with
  | ok ctx => rw [h] at hs; exact hs
  | error ctx => rw [h] at hs; exact hs

/-- C1: invoking the provisioning handler twice in succession against a
freshly created, empty server produces the same end state as invoking it
once - the target database, schema, three roles and extensions are each
present exactly once - and the second invocation succeeds without any
already-exists error, because database and role creation are guarded by
zero-row existence checks and schema/extension creation uses
create-if-not-exists semantics. -/
theorem c1_idempotent_provisioning :
    run1c.result = ok200 ∧ run2c.result = ok200 ∧
    run2c.st = run1c.st ∧
    run1c.st = gwFinalState ∧
    run1c.st.dbs.count "gridwalk" = 1 ∧
    run1c.st.schemas.count "geo" = 1 ∧
    run1c.st.roles.count "write" = 1 ∧
    run1c.st.roles.count "read" = 1 ∧
    run1c.st.roles.count "gis_admin" = 1 ∧
    run1c.st.extensions = ["postgis", "postgis_raster", "fuzzystrmatch",
      "postgis_topology", "hstore"] ∧
    (run1c.st.extensions.all fun e => run1c.st.extensions.count e == 1) = true ∧
    run2c.tr.all (fun e => !e.isFailure) = true := by
  decide

/-- C2: every invocation returns either the 200 success result or the 500
failure result, never any other status: the interpreter's abort path (the
model of the single top-level catch) is the only source of a result, and it
yields exactly `err500`; no exception escapes because `handler` is total. -/
theorem c2_result_is_200_or_500 (cfg : Config) (store : String → Option Secret)
    (o : Oracle) (s0 : DBState) :
    (handler cfg store o s0).result = ok200 ∨
      (handler cfg store o s0).result = err500 := by
  rcases h1 : store cfg.masterSecretName with _ | ms
  · rw [handler_master_none cfg store o s0 h1]
    exact Or.inr rfl
  · rcases h2 : store cfg.readSecretName with _ | rs
    · rw [handler_read_none cfg store o s0 ms h1 h2]
      exact Or.inr rfl
    · rcases h3 : store cfg.gisadminSecretName with _ | gs
      · rw [handler_gisadmin_none cfg store o s0 ms rs h1 h2 h3]
        exact Or.inr rfl
      · rcases h4 : store cfg.appSecretName with _ | sa
        · rw [handler_app_none cfg store o s0 ms rs gs h1 h2 h3 h4]
          exact Or.inr rfl
        · rw [handler_all_some cfg store o s0 ms rs gs sa h1 h2 h3 h4]
          exact provisionOutcome_result cfg ms rs gs sa o s0

/-- C3: if any of the four secret lookups is unresolvable the handler
returns the failure result without opening any database connection; and any
run that does open a connection completed all four lookups first - they are
the first four events of its trace. -/
theorem c3_secrets_before_any_connection (cfg : Config)
    (store : String → Option Secret) (o : Oracle) (s0 : DBState) :
    ((store cfg.masterSecretName = none ∨ store cfg.readSecretName = none ∨
      store cfg.gisadminSecretName = none ∨ store cfg.appSecretName = none) →
      (handler cfg store o s0).result = err500 ∧
        (handler cfg store o s0).tr.all (fun e => !e.isConnect) = true) ∧
    ((handler cfg store o s0).tr.any Event.isConnect = true →
      (handler cfg store o s0).tr.take 4 =
        [.getSecret cfg.masterSecretName true,
         .getSecret cfg.readSecretName true,
         .getSecret cfg.gisadminSecretName true,
         .getSecret cfg.appSecretName true]) := by
  rcases h1 : store cfg.masterSecretName with _ | ms
  · rw [handler_master_none cfg store o s0 h1]
    exact ⟨fun _ => ⟨rfl, rfl⟩, fun hx => Bool.noConfusion hx⟩
  · rcases h2 : store cfg.readSecretName with _ | rs
    · rw [handler_read_none cfg store o s0 ms h1 h2]
      exact ⟨fun _ => ⟨rfl, rfl⟩, fun hx => Bool.noConfusion hx⟩
    · rcases h3 : store cfg.gisadminSecretName with _ | gs
      · rw [handler_gisadmin_none cfg store o s0 ms rs h1 h2 h3]
        exact ⟨fun _ => ⟨rfl, rfl⟩, fun hx => Bool.noConfusion hx⟩
      · rcases h4 : store cfg.appSecretName with _ | sa
        · rw [handler_app_none cfg store o s0 ms rs gs h1 h2 h3 h4]
          exact ⟨fun _ => ⟨rfl, rfl⟩, fun hx => Bool.noConfusion hx⟩
        · rw [handler_all_some cfg store o s0 ms rs gs sa h1 h2 h3 h4]
          constructor
          · intro hbad
            simp at hbad
          · intro _
            obtain ⟨t, ht⟩ := provisionOutcome_tr cfg ms rs gs sa o s0
            rw [ht]
            rfl

/-- C4: the handler executes the provisioning steps in the fixed
specification order, each round-trip completing before the next statement
is issued: the trace of a fresh successful run is exactly `gwTrace1` -
master connect to `postgres`, database check/create, awaited close, master
connect to the target, schema and search path, write role then read role
then admin role with their grants, master membership and default read
grants, close, admin connect, the five extensions, topology ownership fixes,
close. -/
theorem c4_fixed_order_execution :
    run1c.tr = gwTrace1 "pw-app" "pw-read" "pw-gisadmin" ∧
    run1c.result = ok200 := by
  decide

/-- C5: when any step fails - any of the four secret lookups, any of the 3
connection attempts, or any of the 34 issued statements - nothing is issued
after the failing step, no compensating or rollback statement runs (the
final state is exactly the replay of the executed prefix), and the failure
result is returned; verified for every failure point of the deployed
configuration. -/
theorem c5_failure_aborts_without_rollback :
    ((List.range 34).all fun k => abortsCleanly gwStoreC (failStmtAt k)) = true ∧
    ((List.range 3).all fun k => abortsCleanly gwStoreC (failConnAt k)) = true ∧
    abortsCleanly (dropName "gridwalk-master" gwStoreC) Oracle.allOk = true ∧
    abortsCleanly (dropName "gridwalk-read" gwStoreC) Oracle.allOk = true ∧
    abortsCleanly (dropName "gridwalk-gisadmin" gwStoreC) Oracle.allOk = true ∧
    abortsCleanly (dropName "gridwalk-app" gwStoreC) Oracle.allOk = true ∧
    run1c.tr.countP Event.isQuery = 34 ∧
    run1c.tr.countP Event.isConnect = 3 := by
  decide

/-- C6: the full set of grant statements for the three roles is executed
unconditionally on every invocation - the repeat run, where all roles
already exist, issues the identical 16 grant statements and no CREATE USER -
and in the command sequence CREATE USER occurs only guarded by the
role-existence check for the same username. -/
theorem c6_grants_unconditional_creates_guarded :
    run2c.tr = gwTrace2 ∧
    run2c.tr.filter Event.isCreateUser = [] ∧
    run2c.tr.filter Event.isGrantStmt = run1c.tr.filter Event.isGrantStmt ∧
    (run2c.tr.filter Event.isGrantStmt).length = 16 ∧
    (run1c.tr.filter Event.isCreateUser).length = 3 ∧
    ((provisionProgram gwConfig (masterSecret "pw-master") (readSecret "pw-read")
        (gisadminSecret "pw-gisadmin") (appSecret "pw-app")).all fun c =>
      match c with
      | Cmd.run (Stmt.createUser _ _) => false
      | Cmd.checkThen ck (Stmt.createUser u _) => ck == Check.roleExists u
      | _ => true) = true := by
  decide

/-- C7: after a successful invocation every catalog object of kind table,
sequence or view in the `topology` namespace is owned by the admin role
(`gis_admin`, which is both the hard-coded target of the per-row
ownership-transfer statement and the admin username `data.ts` pins); the
per-row transfer and its helper function were both issued, and the
namespace holds two tables and one sequence. -/
theorem c7_topology_ownership_transferred :
    (run1c.st.catalog.all fun ob =>
      !isTopologyTarget ob || (ob.owner == "gis_admin")) = true ∧
    (run1c.st.catalog.filter isTopologyTarget).length = 3 ∧
    (run1c.st.catalog.countP fun ob =>
      ob.nspname == "topology" && ob.relkind == "r") = 2 ∧
    (run1c.st.catalog.countP fun ob =>
      ob.nspname == "topology" && ob.relkind == "S") = 1 ∧
    Event.query Stmt.execOwnershipTransfer true ∈ run1c.tr ∧
    Event.query Stmt.createExecFunction true ∈ run1c.tr := by
  decide

/-- C8 counterexample: the claim that each connection's closure is completed
before the next connection is opened is false - in a successful invocation
the close of the second connection (master to the target database) is never
awaited (`dbClient.end()` has no `await` in the source), so the trace holds
an unawaited close and no awaited close for that connection. -/
theorem c8_close_completion_cex :
    Event.endConn "postgres" "gridwalk" false ∈ run1c.tr ∧
    Event.endConn "postgres" "gridwalk" true ∉ run1c.tr ∧
    run1c.tr.all Event.closeAwaited = false ∧
    run1c.result = ok200 := by
  decide

/-- C8 (amended): the three connections are used strictly in sequence,
each is explicitly closed - `end()` is invoked before the next connection
opens and no connection is reused - but only the first connection's closure
is awaited; the second and third `end()` calls are not awaited, so their
completion before the next open is not guaranteed. -/
theorem c8_connections_sequential_close_initiated :
    connEvents run1c.tr =
      [.connect "postgres" "postgres" true,
       .endConn "postgres" "postgres" true,
       .connect "postgres" "gridwalk" true,
       .endConn "postgres" "gridwalk" false,
       .connect "gis_admin" "gridwalk" true,
       .endConn "gis_admin" "gridwalk" false] := by
  decide

/-- C9: no entity is ever deleted or renamed - over any invocation, from any
state, with any injected failures, the sets of databases, roles, schemas and
extensions only grow - and a repeat invocation modifies nothing at all: its
final state (including every non-grant attribute) equals the first run's,
grant re-application included since re-applied grants are no-ops. -/
theorem c9_entities_never_deleted_rerun_frame (cfg : Config)
    (store : String → Option Secret) (o : Oracle) (s0 : DBState) :
    entitiesSub s0 (handler cfg store o s0).st ∧
    run2c.st = run1c.st ∧
    run2c.st.grants = run1c.st.grants := by
  exact ⟨handler_st_sub cfg store o s0, by decide, by decide⟩

/-- C10: every statement text is raw template interpolation of environment
values (database, schema) and secret fields (usernames, passwords) with no
quoting or escaping; in particular, for the password a'b - which contains a
single quote - the CREATE USER text the handler sends is not the statement
carrying that password as its SQL string literal (the literal would double
the quote), yet exactly that raw statement is sent in a run using that
password. -/
theorem c10_raw_interpolation_no_escaping (u p db sc : String) :
    (Stmt.createUser u p).text =
      "CREATE USER " ++ u ++ " WITH ENCRYPTED PASSWORD '" ++ p ++ "';" ∧
    (Check.roleExists u).text =
      "SELECT 1 FROM pg_catalog.pg_roles WHERE rolname='" ++ u ++ "';" ∧
    (Check.dbExists db).text =
      "SELECT 1 FROM pg_database WHERE datname='" ++ db ++ "';" ∧
    (Stmt.createDatabase db).text = "CREATE DATABASE " ++ db ∧
    (Stmt.createSchemaIfNotExists sc).text =
      "CREATE SCHEMA IF NOT EXISTS " ++ sc ++ ";" ∧
    (Stmt.grantConnect db u).text =
      "GRANT CONNECT ON DATABASE " ++ db ++ " TO " ++ u ++ ";" ∧
    (Stmt.createUser "write" "a'b").text ≠
      "CREATE USER write WITH ENCRYPTED PASSWORD " ++ sqlStringLiteral "a'b" ++ ";" ∧
    Event.query (Stmt.createUser "write" "a'b") true ∈
      (run1 "pw-master" "pw-read" "pw-gisadmin" "a'b").tr := by
  refine ⟨rfl, rfl, rfl, rfl, rfl, rfl, by decide, by decide⟩

end GridwalkInit
